import Mathlib

/-!
# Verification of the inquiry/contact email pipeline and session cart

Shallow embedding of the Python sources of the hotel-furniture site:

* `app/services/cart_service.py`    — session cart (`CartService`)
* `app/services/inquiry_service.py` — inquiry orchestrator (`InquiryService`)
* `app/utils/mail.py`               — SMTP transport (`send_email`)
* `app/routes/cart.py`              — `/cart/send-inquiry` route
* `app/routes/contact.py`           — `/contact/send` route

Conventions of the embedding:

* Python `dict` payloads with a known key set become structures whose fields
  are `Option String` / `Option Int` (`none` = key absent / SQL NULL).
* Python truthiness of a string is `s ≠ ""`, of an optional value
  `(o.getD "") ≠ ""`, of an `Option Int` port `(o.getD 0) ≠ 0`.
* Timestamps are whole seconds (`Int`).  A stored session timestamp is a
  `StoredTime`: absent key, a value `datetime.fromisoformat` fails on, or a
  parsed instant.
* External effects (database rows, the filesystem, SMTP attempt outcomes)
  are oracles passed in as explicit environment records; each operation
  returns its result together with the new session state and a record of
  the observable effects it performed (files touched, connections opened,
  sleeps, whether the body was composed, the arguments handed to the
  transport).
* Python string primitives (`strip`, `lower`, `capitalize`, `split`,
  `in`) are re-implemented on `List Char` so that every definition is
  executable by the kernel.
-/

set_option autoImplicit false

namespace HotelSite

/-! ## Python string primitives -/

/-- Python `str.strip()` (whitespace at both ends). -/
def pyStrip (s : String) : String :=
  ⟨((s.data.dropWhile Char.isWhitespace).reverse.dropWhile Char.isWhitespace).reverse⟩

/-- Python `str.lower()` (ASCII letters; other characters unchanged). -/
def pyLower (s : String) : String :=
  ⟨s.data.map Char.toLower⟩

/-- Python `str.capitalize()`: first character upper-cased, rest lower-cased. -/
def pyCapitalize (s : String) : String :=
  match s.data with
  | [] => ""
  | c :: rest => ⟨c.toUpper :: rest.map Char.toLower⟩

/-- Python `c in s` for a single character. -/
def pyHasChar (s : String) (c : Char) : Bool :=
  s.data.contains c

/-- `str.split(sep)` for a one-character separator, auxiliary loop. -/
def splitCharAux (c : Char) : List Char → List Char → List (List Char)
  | [], acc => [acc.reverse]
  | x :: xs, acc =>
    if x = c then acc.reverse :: splitCharAux c xs [] else splitCharAux c xs (x :: acc)

/-- Python `s.split(c)` for a one-character separator. -/
def pySplitChar (s : String) (c : Char) : List String :=
  (splitCharAux c s.data []).map fun l => ⟨l⟩

/-- Python `sub in s` (substring containment) on character lists. -/
def hasSubList (sub : List Char) : List Char → Bool
  | [] => sub.isEmpty
  | c :: rest => sub.isPrefixOf (c :: rest) || hasSubList sub rest

/-- Python `sub in s` (substring containment). -/
def pyInStr (sub s : String) : Bool :=
  hasSubList sub.data s.data

/-- Python `", ".join l`. -/
def joinComma : List String → String
  | [] => ""
  | [x] => x
  | x :: y :: rest => x ++ ", " ++ joinComma (y :: rest)

/-- Python `a or b` on an optional string (`None`/`""` are falsy). -/
def pyOrStr (a : Option String) (b : String) : String :=
  match a with
  | some s => if s = "" then b else s
  | none => b

/-! ## Session timestamps

`session[k]` holds an ISO timestamp string.  `StoredTime` is its parse
status under `datetime.fromisoformat`: the key may be absent (or hold a
falsy value), hold an unparseable string, or parse to an instant `t`
(whole seconds, UTC). -/

inductive StoredTime where
  /-- session key absent, or holds a falsy value (`if last_time_str:` fails) -/
  | absent : StoredTime
  /-- session key holds a string `datetime.fromisoformat` raises on -/
  | malformed : StoredTime
  /-- session key parses to the instant `t` (seconds) -/
  | time (t : Int) : StoredTime
deriving DecidableEq, Repr

/-! ## Cart service — `app/services/cart_service.py` -/

/-- `Product` row fields used by `CartService.add_to_cart`
(`app/models.py`); `category_name` is `product.category.name` when the
product has a category. -/
structure Product where
  id : Int
  name : String
  product_code : String
  image : Option String
  length : Option Int
  width : Option Int
  height : Option Int
  featured_series : Option String
  category_name : Option String
deriving DecidableEq, Repr

/-- One stored cart line (the dict appended by `add_to_cart`). -/
structure CartItem where
  id : Int
  name : String
  code : String
  image : Option String
  image_url : String
  qty : Int
  length : Option Int
  width : Option Int
  height : Option Int
  series : String
  category : String
deriving DecidableEq, Repr

/-- External collaborators of `CartService`: the product table
(`Product.query.get`), `get_image_url('products', ·)` and the placeholder
URL `url_for('static', filename='img/placeholder.jpg')`. -/
structure CartEnv where
  db : Int → Option Product
  imgUrl : Option String → String
  placeholderUrl : String

/-- `CartService.MAX_ITEMS`. -/
def MAX_ITEMS : Nat := 50

/-- `CartService.MAX_QTY_PER_ITEM`. -/
def MAX_QTY_PER_ITEM : Int := 999

/-- The per-line `image_url` refresh performed by `get_cart`
(placeholder when `image` is falsy). -/
def enrichLine (env : CartEnv) (item : CartItem) : CartItem :=
  if (item.image.getD "") ≠ "" then { item with image_url := env.imgUrl item.image }
  else { item with image_url := env.placeholderUrl }

/-- `CartService.get_cart`: returns the stored lines, refreshing
`image_url` on every line.  The enriched list is only persisted when the
caller stores it back. -/
def get_cart (env : CartEnv) (stored : List CartItem) : List CartItem :=
  stored.map (enrichLine env)

/-- In-place quantity assignment of the first line with the given id
(the `for item in items: ... item['qty'] = new_qty; break` loop). -/
def setQtyFirst : List CartItem → Int → Int → List CartItem
  | [], _, _ => []
  | i :: rest, pid, q =>
    if i.id = pid then { i with qty := q } :: rest else i :: setQtyFirst rest pid q

/-- The line `add_to_cart` appends for a product not yet in the cart. -/
def newCartLine (env : CartEnv) (p : Product) (qty : Int) : CartItem :=
  { id := p.id
    name := p.name
    code := p.product_code
    image := p.image
    image_url := env.imgUrl p.image
    qty := qty
    length := p.length
    width := p.width
    height := p.height
    series := pyOrStr p.featured_series "常规产品"
    category := p.category_name.getD "未分类" }

/-- `CartService.add_to_cart`.  Returns the stored cart after the call
and the `(success, message)` pair.  On every error path the session cart
is left as it was. -/
def add_to_cart (env : CartEnv) (stored : List CartItem) (product_id : Int) (qty : Int) :
    List CartItem × (Bool × String) :=
  if qty < 1 then (stored, (false, "数量必须大于 0"))
  else
    match env.db product_id with
    | none => (stored, (false, "产品 ID " ++ toString product_id ++ " 不存在"))
    | some product =>
      let items := get_cart env stored
      if items.length ≥ MAX_ITEMS ∧ ¬ items.any (fun i => i.id = product_id) then
        (stored, (false, "购物车已满（最多 " ++ toString MAX_ITEMS ++ " 种商品）"))
      else
        match items.find? (fun i => i.id = product_id) with
        | some item =>
          if item.qty + qty > MAX_QTY_PER_ITEM then
            (stored, (false, "单品数量不能超过 " ++ toString MAX_QTY_PER_ITEM))
          else
            (setQtyFirst items product_id (item.qty + qty),
             (true, "已将「" ++ product.name ++ "」加入购物车（数量：" ++ toString qty ++ "）"))
        | none =>
          (items ++ [newCartLine env product qty],
           (true, "已将「" ++ product.name ++ "」加入购物车（数量：" ++ toString qty ++ "）"))

/-- `CartService.remove_from_cart`. -/
def remove_from_cart (env : CartEnv) (stored : List CartItem) (product_id : Int) :
    List CartItem × (Bool × String) :=
  let items := get_cart env stored
  let items' := items.filter fun i => i.id ≠ product_id
  if items'.length = items.length then
    (stored, (false, "购物车中未找到产品 ID " ++ toString product_id))
  else
    (items', (true, "商品已从购物车移除"))

/-- `CartService.update_quantity`: `qty < 1` delegates to
`remove_from_cart`; otherwise the first matching line is updated, with
the `MAX_QTY_PER_ITEM` cap enforced. -/
def update_quantity (env : CartEnv) (stored : List CartItem) (product_id : Int) (qty : Int) :
    List CartItem × (Bool × String) :=
  if qty < 1 then remove_from_cart env stored product_id
  else
    let items := get_cart env stored
    match items.find? (fun i => i.id = product_id) with
    | some item =>
      if qty > MAX_QTY_PER_ITEM then
        (stored, (false, "单品数量不能超过 " ++ toString MAX_QTY_PER_ITEM))
      else
        (setQtyFirst items product_id qty,
         (true, "「" ++ item.name ++ "」数量已更新为 " ++ toString qty))
    | none => (stored, (false, "购物车中未找到产品 ID " ++ toString product_id))

/-- `CartService.clear_cart`. -/
def clear_cart (_stored : List CartItem) : List CartItem := []

/-- One session-cart mutation, as exposed by `CartService`. -/
inductive CartStep (env : CartEnv) : List CartItem → List CartItem → Prop where
  | add (s : List CartItem) (pid qty : Int) : CartStep env s (add_to_cart env s pid qty).1
  | update (s : List CartItem) (pid qty : Int) : CartStep env s (update_quantity env s pid qty).1
  | remove (s : List CartItem) (pid : Int) : CartStep env s (remove_from_cart env s pid).1
  | clear (s : List CartItem) : CartStep env s (clear_cart s)

/-- Cart states reachable from the empty session cart through
`CartService` operations. -/
inductive CartReachable (env : CartEnv) : List CartItem → Prop where
  | init : CartReachable env []
  | step {s t : List CartItem} : CartReachable env s → CartStep env s t → CartReachable env t

/-! ## Mail transport — `app/utils/mail.py` `send_email` -/

/-- One attachment dict handed to `send_email`
(`{'filename', 'data', 'content_type'}`); bytes are a list of byte
values. -/
structure MailAttachment where
  filename : String
  data : List Nat
  content_type : String
deriving DecidableEq, Repr

/-- The keyword arguments of `send_email` (minus the retry knobs). -/
structure MailArgs where
  smtp_server : String
  smtp_port : Int
  username : String
  password : String
  from_addr : String
  to_addr : String
  subject : String
  body : String
  is_html : Bool
  use_ssl : Bool
  use_tls : Bool
  sender_name : String
  attachments : Option (List MailAttachment)
deriving DecidableEq, Repr

/-- Observable transport effects: opening a fresh SMTP connection
(`SMTP_SSL(...)` / `SMTP(...)`, with the effective SSL flag), and
`time.sleep(d)` (seconds; the reference delays are exact dyadics). -/
inductive MailEvent where
  | connect (ssl : Bool) : MailEvent
  | sleep (d : ℚ) : MailEvent
deriving DecidableEq, Repr

/-- Whether a transport event is a connection establishment. -/
def isConnect : MailEvent → Bool
  | .connect _ => true
  | .sleep _ => false

/-- Non-deterministic outside world of one `send_email` call: whether the
k-th delivery attempt (connect + login + sendmail + quit) succeeds, the
exception text `str(e)` when it fails, and whether `msg.as_bytes()`
serialization succeeds. -/
structure MailEnv where
  attemptSucceeds : Nat → Bool
  errText : Nat → String
  serializeOk : Bool
  serializeErr : String

/-- Result of `send_email`: the returned `(success, message)` pair, the
session key `last_email_send_time` after the call, and the transport
events performed. -/
structure SendEmailResult where
  success : Bool
  message : String
  lastSend : StoredTime
  events : List MailEvent
deriving Repr

/-- The inner cooldown of `send_email` (session key
`last_email_send_time`, window 120 s): `some msg` when the call is
rejected.  An unparseable stored value falls through (`except: pass`). -/
def mailCooldownBlock (lastSend : StoredTime) (now : Int) : Option String :=
  match lastSend with
  | .time t =>
    if now - t < 120 then
      let remaining : Int := 120 - (now - t)
      let mins : Int := remaining / 60 + (if remaining % 60 ≠ 0 then 1 else 0)
      some ("請等待約 " ++ toString mins ++ " 分鐘後再發送")
    else none
  | _ => none

/-- Attachment preprocessing of `send_email` (keep entries whose
`filename` and `data` are truthy). -/
def processAttachments (attachments : Option (List MailAttachment)) :
    List (String × List Nat) :=
  ((attachments.getD []).filter fun a => a.filename ≠ "" ∧ a.data ≠ []).map
    fun a => (a.filename, a.data)

/-- The retry loop of `send_email` (`for attempt in range(1, max_retries + 1)`),
started at `attempt` with `fuel` iterations left.  Each iteration opens a
fresh connection; on failure at the last attempt the aggregated error is
returned, otherwise the loop sleeps `initial_delay * 2^(attempt-1)`
seconds and retries. -/
def sendLoop (env : MailEnv) (ssl : Bool) (initialDelay : ℚ) (maxRetries : Nat) :
    Nat → Nat → List MailEvent × Bool × String
  | _, 0 => ([], false, "所有重試均失敗")
  | attempt, fuel + 1 =>
    if env.attemptSucceeds attempt then
      ([MailEvent.connect ssl], true, "郵件發送成功")
    else if fuel = 0 then
      ([MailEvent.connect ssl], false,
       "經過 " ++ toString maxRetries ++ " 次重試後發送失敗：" ++ env.errText attempt)
    else
      let rest := sendLoop env ssl initialDelay maxRetries (attempt + 1) fuel
      (MailEvent.connect ssl :: MailEvent.sleep (initialDelay * 2 ^ (attempt - 1)) :: rest.1,
       rest.2.1, rest.2.2)

/-- `send_email` (`app/utils/mail.py`).  MIME construction itself is not
modelled beyond the serialization oracle: the built message is opaque to
every property stated below.  `now` is `datetime.utcnow()` at entry. -/
def send_email (env : MailEnv) (lastSend : StoredTime) (now : Int) (args : MailArgs)
    (maxRetries : Nat := 3) (initialDelay : ℚ := 2) : SendEmailResult :=
  match mailCooldownBlock lastSend now with
  | some m => ⟨false, m, lastSend, []⟩
  | none =>
    if args.smtp_server = "" ∨ args.smtp_port = 0 ∨ args.username = "" ∨
        args.password = "" ∨ args.from_addr = "" ∨ args.to_addr = "" then
      ⟨false, "SMTP 配置不完整，請檢查後台", lastSend, []⟩
    else
      let ssl := args.use_ssl || args.smtp_port = 465
      if ¬ env.serializeOk then
        ⟨false, "郵件內容序列化失敗: " ++ env.serializeErr, lastSend, []⟩
      else
        let r := sendLoop env ssl initialDelay maxRetries 1 maxRetries
        if r.2.1 then ⟨true, r.2.2, .time now, r.1⟩
        else ⟨false, r.2.2, lastSend, r.1⟩

/-! ## Inquiry orchestrator — `app/services/inquiry_service.py` -/

/-- The `customer_info` dict (keys the code accesses); `none` = key
absent. -/
structure CustomerInfo where
  name : Option String
  email : Option String
  phone : Option String
  whatsapp : Option String
  company : Option String
  subject : Option String
  message : Option String
deriving DecidableEq, Repr

/-- One entry of the `items` payload (keys the inquiry service
accesses). -/
structure InqItem where
  name : Option String
  product_code : Option String
  quantity : Option Int
  image : Option String
deriving DecidableEq, Repr

/-- The `Settings` row fields used by this pipeline.  `mode` has a
non-null column default (`'official'`); the pipeline only reads it on a
row fetched from the database. -/
structure Settings where
  email1 : Option String
  company_name : Option String
  mode : String
deriving DecidableEq, Repr

/-- The `SmtpConfig` row fields used by this pipeline. -/
structure SmtpConfig where
  mail_server : Option String
  mail_port : Option Int
  mail_username : Option String
  mail_password : Option String
  mail_use_tls : Bool
  mail_use_ssl : Bool
  is_active : Bool
  default_sender_name : Option String
deriving DecidableEq, Repr

/-- The configuration tables (`Settings.query.first()`,
`SmtpConfig.query.first()`). -/
structure Db where
  settingsRow : Option Settings
  smtpRow : Option SmtpConfig
deriving DecidableEq, Repr

/-- The user-facing rate-limit message of `_check_cooldown`. -/
def cooldownMessage (mins : Int) : String :=
  "Please wait approximately " ++ toString mins ++
    " minute(s) before sending another message (server protection)."

/-- `InquiryService._check_cooldown` (session key `last_inquiry_time`,
`COOLDOWN_SECONDS = 120`): `(allowed, message)`.  A parse failure is
logged and falls through to allowed. -/
def check_cooldown (lastInquiry : StoredTime) (now : Int) : Bool × Option String :=
  match lastInquiry with
  | .time t =>
    if now - t < 120 then
      let remaining : Int := 120 - (now - t)
      let mins : Int := if remaining % 60 ≠ 0 then remaining / 60 + 1 else remaining / 60
      (false, some (cooldownMessage mins))
    else (true, none)
  | _ => (true, none)

/-- `InquiryService._get_common_config`: the `(settings, smtp, err)`
triple, rendered as an `Except`. -/
def get_common_config (db : Db) : Except String (Settings × SmtpConfig) :=
  match db.settingsRow with
  | none => .error "Server configuration error: missing recipient email"
  | some settings =>
    if (settings.email1.getD "") = "" then
      .error "Server configuration error: missing recipient email"
    else
      match db.smtpRow with
      | none => .error "SMTP configuration incomplete"
      | some smtp =>
        if (smtp.mail_server.getD "") = "" ∨ (smtp.mail_port.getD 0) = 0 ∨
            (smtp.mail_username.getD "") = "" ∨ (smtp.mail_password.getD "") = "" then
          .error "SMTP configuration incomplete"
        else .ok (settings, smtp)

/-- `customer_info.get(field)` for the fields the validator iterates
over. -/
def ciGet (ci : CustomerInfo) (f : String) : Option String :=
  if f = "name" then ci.name
  else if f = "email" then ci.email
  else if f = "phone" then ci.phone
  else none

/-- `InquiryService._validate_input`: `name` and `email` always
required, `phone` additionally when `is_inquiry`; then the local email
shape check (`'@' in email and '.' in email.split('@')[-1]`). -/
def validate_input (ci : CustomerInfo) (is_inquiry : Bool) : Bool × Option String :=
  let required := if is_inquiry then ["name", "email", "phone"] else ["name", "email"]
  match required.find? (fun f => pyStrip ((ciGet ci f).getD "") = "") with
  | some f => (false, some ("Please provide your " ++ pyCapitalize f))
  | none =>
    let email := pyStrip (ci.email.getD "")
    if ¬ pyHasChar email '@' ∨ ¬ pyHasChar ((pySplitChar email '@').getLastD "") '.' then
      (false, some "Please enter a valid email address")
    else (true, none)

/-- The read-only filesystem under `static/uploads/products` as the
attachment assembler sees it: existence, readability (`getsize`/`open`
not raising), size, bytes, and `mimetypes.guess_type`. -/
structure Fs where
  uploadFolder : String
  pathExists : String → Bool
  readOk : String → Bool
  sizeOf : String → Int
  content : String → List Nat
  mimeGuess : String → Option String

/-- `MAX_ATTACHMENT_SIZE` (5 MB per file). -/
def MAX_ATTACHMENT_SIZE : Int := 5 * 1024 * 1024

/-- `MAX_TOTAL_ATTACHMENTS_SIZE` (10 MB total). -/
def MAX_TOTAL_ATTACHMENTS_SIZE : Int := 10 * 1024 * 1024

/-- Accumulator of the `_prepare_attachments` loop; `accessed` records
every path the loop touched on disk. -/
structure PrepState where
  attachments : List MailAttachment
  total_size : Int
  attach_count : Nat
  skipped : List String
  accessed : List String
deriving DecidableEq, Repr

/-- One iteration of the `_prepare_attachments` loop.  A read error
(`getsize`/`open`/`read` raising) skips the file; the observable outcome
does not depend on which of the three raised. -/
def prepStep (fs : Fs) (st : PrepState) (item : InqItem) : PrepState :=
  match item.image with
  | none => st
  | some img =>
    if img = "" then st
    else
      let path := fs.uploadFolder ++ "/" ++ pyStrip img
      let st := { st with accessed := st.accessed ++ [path] }
      if ¬ fs.pathExists path then { st with skipped := st.skipped ++ [img] }
      else if ¬ fs.readOk path then { st with skipped := st.skipped ++ [img] }
      else
        let file_size := fs.sizeOf path
        if file_size > MAX_ATTACHMENT_SIZE then
          { st with skipped := st.skipped ++ [img ++ " (file too large)"] }
        else if st.total_size + file_size > MAX_TOTAL_ATTACHMENTS_SIZE then
          { st with skipped := st.skipped ++ [img ++ " (total size limit exceeded)"] }
        else
          { st with
            attachments := st.attachments ++
              [⟨img, fs.content path, (fs.mimeGuess path).getD "application/octet-stream"⟩]
            total_size := st.total_size + file_size
            attach_count := st.attach_count + 1 }

/-- `InquiryService._prepare_attachments`: the attachment list, the
human-readable description, and the list of paths touched on disk. -/
def prepare_attachments (fs : Fs) (items : List InqItem) :
    List MailAttachment × String × List String :=
  let st := items.foldl (prepStep fs) ⟨[], 0, 0, [], []⟩
  let desc := "Product main images (" ++ toString st.attach_count ++ " attached" ++
    (if st.skipped ≠ [] then
      ", " ++ toString st.skipped.length ++ " skipped due to size/error)"
     else ")")
  (st.attachments, desc, st.accessed)

/-- Python `s.replace('\n', '<br>')`. -/
def replaceNewlineBr (s : String) : String :=
  ⟨s.data.foldr (fun c acc => (if c = '\n' then "<br>".data else [c]) ++ acc) []⟩

/-- The `<tr>` rows of the product table (`enumerate(items, 1)`). -/
def productRows : Nat → List InqItem → String
  | _, [] => ""
  | idx, item :: rest =>
    "<tr><td>" ++ toString idx ++ "</td><td>" ++ item.name.getD "Unnamed Product" ++
      "</td><td>" ++ item.product_code.getD "N/A" ++ "</td><td>" ++
      toString (item.quantity.getD 1) ++ "</td></tr>" ++ productRows (idx + 1) rest

/-- The wall clock at the time of the call: the instant in seconds and
its `strftime('%Y-%m-%d')` / `strftime('%Y-%m-%d %H:%M:%S UTC')`
renderings. -/
structure Clock where
  now : Int
  dateStr : String
  dateTimeStr : String

/-- `InquiryService._build_inquiry_body_html`.  The literal text of the
Python template is reproduced; the indentation/blank-line layout of the
triple-quoted source string is not replicated character-for-character
(no stated property inspects the body). -/
def build_inquiry_body_html (items : List InqItem) (ci : CustomerInfo) (settings : Settings)
    (attach_desc : String) (clock : Clock) (ip : String) : String :=
  let is_contact_only := items.length = 0
  let title :=
    if is_contact_only then "New Contact Message"
    else "New Inquiry - " ++ toString items.length ++ " Product" ++
      (if items.length ≠ 1 then "s" else "")
  let head := "<html>\n<head>\n<style>\n" ++
    "body \x7b font-family: Arial, Helvetica, sans-serif; line-height: 1.6; color: #333; max-width: 700px; margin: 0 auto; \x7d\n" ++
    "h2 \x7b color: #2c5282; \x7d\n" ++
    "table \x7b border-collapse: collapse; width: 100%; margin: 20px 0; \x7d\n" ++
    "th, td \x7b border: 1px solid #ddd; padding: 12px; text-align: left; \x7d\n" ++
    "th \x7b background: #2c5282; color: white; \x7d\n" ++
    "tr:nth-child(even) \x7b background: #f8f9fa; \x7d\n" ++
    ".section \x7b margin: 20px 0; \x7d\n" ++
    "</style>\n</head>\n<body>\n<h2>" ++ title ++ "</h2>\n<div class=\"section\">\n"
  let productPart :=
    if ¬ is_contact_only then
      "<h3>Requested Products</h3>\n<table>\n<tr><th>#</th><th>Product Name</th><th>Code</th><th>Quantity</th></tr>\n" ++
        productRows 1 items ++ "</table></div><div class=\"section\">"
    else ""
  let phone := ci.phone.getD (ci.whatsapp.getD "Not provided")
  let tail :=
    "<strong>Customer Information:</strong><br>\nName: " ++ ci.name.getD "Not provided" ++
    "<br>\nEmail: " ++ ci.email.getD "Not provided" ++
    "<br>\nPhone/WhatsApp: " ++ phone ++
    "\n</div>\n<div class=\"section\">\n<strong>Message:</strong><br>\n" ++
    replaceNewlineBr (ci.message.getD "No message provided") ++
    "\n</div>\n<div class=\"section\">\n<strong>Additional Information:</strong><br>\nSubject: " ++
    ci.subject.getD "General Inquiry" ++ "<br>\nSent at: " ++ clock.dateTimeStr ++
    "<br>\nIP Address: " ++ ip ++ "<br>\nWebsite Mode: " ++ pyCapitalize settings.mode ++
    "<br>\n" ++ (if ¬ is_contact_only then attach_desc else "No attachments (contact form)") ++
    "\n</div>\n<p>Thank you for your message. Our team will contact you soon.</p>\n</body>\n</html>"
  head ++ productPart ++ tail

/-- The two cooldown-related session keys (`last_inquiry_time`,
`last_email_send_time`). -/
structure InquiryState where
  lastInquiry : StoredTime
  lastSend : StoredTime
deriving DecidableEq, Repr

/-- Result of `InquiryService.send_inquiry` together with its observable
effects: the session state after the call, whether
`_prepare_attachments` was invoked, the disk paths it touched, whether
the HTML body was composed, the arguments handed to `send_email` (none
when the transport was never called), and the transport events. -/
structure InquiryResult where
  success : Bool
  message : String
  state : InquiryState
  assemblerCalled : Bool
  fsAccessed : List String
  composed : Bool
  mailCalled : Option MailArgs
  mailEvents : List MailEvent
deriving Repr

/-- `InquiryService.send_inquiry`: cooldown check, validation,
configuration, attachment assembly, composition, delivery, and cooldown
recording on success only. -/
def send_inquiry (db : Db) (fs : Fs) (menv : MailEnv) (clock : Clock) (ip : String)
    (st : InquiryState) (items : List InqItem) (ci : CustomerInfo) : InquiryResult :=
  match check_cooldown st.lastInquiry clock.now with
  | (false, m) => ⟨false, m.getD "", st, false, [], false, none, []⟩
  | (true, _) =>
    let is_inquiry := items.length > 0
    match validate_input ci is_inquiry with
    | (false, e) => ⟨false, e.getD "", st, false, [], false, none, []⟩
    | (true, _) =>
      match get_common_config db with
      | .error cfgErr => ⟨false, cfgErr, st, false, [], false, none, []⟩
      | .ok (settings, smtp) =>
        let prep := prepare_attachments fs items
        let subject :=
          if items.length = 0 then
            "New Contact Message - " ++ ci.subject.getD "General Inquiry"
          else
            "New Inquiry - " ++ toString items.length ++ " Product" ++
              (if items.length ≠ 1 then "s" else "") ++ " - " ++ clock.dateStr
        let body := build_inquiry_body_html items ci settings prep.2.1 clock ip
        let args : MailArgs :=
          { smtp_server := smtp.mail_server.getD ""
            smtp_port := smtp.mail_port.getD 0
            username := smtp.mail_username.getD ""
            password := smtp.mail_password.getD ""
            from_addr := smtp.mail_username.getD ""
            to_addr := settings.email1.getD ""
            subject := subject
            body := body
            is_html := true
            use_ssl := smtp.mail_use_ssl
            use_tls := smtp.mail_use_tls
            sender_name := pyOrStr settings.company_name "Hotel Furniture Website"
            attachments := some prep.1 }
        let r := send_email menv st.lastSend clock.now args
        if r.success then
          ⟨true, "Your message has been sent successfully! We will get back to you soon.",
           ⟨.time clock.now, r.lastSend⟩, true, prep.2.2, true, some args, r.events⟩
        else
          ⟨false,
           "Failed to send your message. Please try again later or contact us directly via email or WhatsApp.",
           ⟨st.lastInquiry, r.lastSend⟩, true, prep.2.2, true, some args, r.events⟩

/-! ## Routes — `app/routes/cart.py` and `app/routes/contact.py` -/

/-- An HTTP response of the submission endpoints: status code and the
JSON body `{'success': ..., 'message': ...}`. -/
structure HttpResp where
  status : Nat
  success : Bool
  message : String
deriving DecidableEq, Repr

/-- Route outcome: the response, the session cooldown keys after the
request, the arguments handed to `send_email` (none when the transport
was never reached), and the transport events. -/
structure RouteResult where
  resp : HttpResp
  state : InquiryState
  mailCalled : Option MailArgs
  mailEvents : List MailEvent
deriving Repr

/-- "\n".join. -/
def joinNl : List String → String
  | [] => ""
  | [x] => x
  | x :: y :: rest => x ++ "\n" ++ joinNl (y :: rest)

/-- Python `a or b` on two strings. -/
def pyOr2 (a b : String) : String := if a = "" then b else a

/-- The JSON body of `POST /cart/send-inquiry` (well-typed shapes; the
route's `isinstance` rejections of non-list/non-dict payloads are
outside the model). -/
structure CartInqReq where
  items : Option (List InqItem)
  customer_info : Option CustomerInfo
deriving DecidableEq, Repr

/-- `data.get('customer_info', {})` for an absent key. -/
def emptyCustomerInfo : CustomerInfo := ⟨none, none, none, none, none, none, none⟩

/-- A session cart line viewed through `item.get(...)` by the inquiry
service: the stored dicts use keys `code`/`qty`, so `product_code` and
`quantity` are absent. -/
def cartLineToInqItem (c : CartItem) : InqItem :=
  { name := some c.name, product_code := none, quantity := none, image := c.image }

/-- The positional/keyword parameters `InquiryService.send_inquiry`
declares (`app/services/inquiry_service.py:211`). -/
def send_inquiry_signature : List String := ["items", "customer_info"]

/-- The keyword arguments `app/routes/cart.py:72` passes to
`InquiryService.send_inquiry`. -/
def cart_route_call_kwargs : List String := ["items", "customer_info", "from_session"]

/-- Whether the call at `app/routes/cart.py:72` binds: every keyword
argument must name a declared parameter, otherwise Python raises
`TypeError` before the callee body runs. -/
def cartCallAccepted : Bool :=
  cart_route_call_kwargs.all fun k => send_inquiry_signature.contains k

/-- `POST /cart/send-inquiry` (`app/routes/cart.py send_inquiry`).
An exception from the service call lands in the generic
`except Exception` branch (HTTP 500). -/
def route_cart_send_inquiry (cenv : CartEnv) (db : Db) (fs : Fs) (menv : MailEnv)
    (clock : Clock) (ip : String) (authenticated : Bool) (sessionCart : List CartItem)
    (st : InquiryState) (req : CartInqReq) : RouteResult :=
  let cart := get_cart cenv sessionCart
  let items :=
    if authenticated ∧ cart ≠ [] then cart.map cartLineToInqItem
    else req.items.getD []
  if (¬ (authenticated ∧ cart ≠ [])) ∧ req.items.getD [] = [] then
    ⟨⟨400, false, "No products available for inquiry (items is empty)"⟩, st, none, []⟩
  else if items.length = 0 then
    ⟨⟨400, false, "Inquiry list cannot be empty"⟩, st, none, []⟩
  else
    let ci := req.customer_info.getD emptyCustomerInfo
    let missing := ["name", "email"].filter fun f => (ciGet ci f).getD "" = ""
    if missing ≠ [] then
      ⟨⟨400, false, "Please fill in required fields: " ++ joinComma missing⟩, st, none, []⟩
    else
      let ci' := { ci with
        phone := some (ci.phone.getD "")
        company := some (ci.company.getD "")
        message := some (ci.message.getD "") }
      if cartCallAccepted then
        let r := send_inquiry db fs menv clock ip st items ci'
        if r.success then
          ⟨⟨200, true,
            pyOr2 r.message
              "Your inquiry has been successfully sent. We will reply within 24 hours!"⟩,
           r.state, r.mailCalled, r.mailEvents⟩
        else
          let status :=
            if pyInStr "cooldown" (pyLower r.message) || pyInStr "wait" (pyLower r.message) then
              429
            else 400
          ⟨⟨status, false, r.message⟩, r.state, r.mailCalled, r.mailEvents⟩
      else
        ⟨⟨500, false, "System is busy, please try again later or contact support"⟩,
         st, none, []⟩

/-- The form/JSON payload of `POST /contact/send` (`data.get` keys). -/
structure ContactReq where
  name : Option String
  email : Option String
  phone : Option String
  whatsapp : Option String
  subject : Option String
  message : Option String
  company : Option String
deriving DecidableEq, Repr

/-- The fallback `Settings()` instance of
`Settings.query.first() or Settings()` (attributes unset: column
defaults are not applied before a flush; `mode` is never read on this
path). -/
def freshSettings : Settings := ⟨none, none, "official"⟩

/-- `POST /contact/send` (`app/routes/contact.py send_contact`). -/
def route_send_contact (db : Db) (menv : MailEnv) (clock : Clock)
    (st : InquiryState) (req : ContactReq) : RouteResult :=
  let name := pyStrip (req.name.getD "")
  let email := pyStrip (req.email.getD "")
  let phone := pyOr2 (pyStrip (req.phone.getD "")) (pyStrip (req.whatsapp.getD ""))
  let subj := pyStrip (req.subject.getD "General Inquiry")
  let message := pyStrip (req.message.getD "")
  let company := pyStrip (req.company.getD "")
  if name = "" ∨ email = "" ∨ message = "" then
    ⟨⟨400, false, "Name, Email and Message are required."⟩, st, none, []⟩
  else
    match db.smtpRow with
    | none =>
      ⟨⟨500, false, "Mail service not configured. Please contact administrator."⟩, st, none, []⟩
    | some smtp_config =>
      if ¬ smtp_config.is_active then
        ⟨⟨500, false, "Mail service not configured. Please contact administrator."⟩, st, none, []⟩
      else
        let settings := db.settingsRow.getD freshSettings
        let to_addr := pyOrStr settings.email1 (smtp_config.mail_username.getD "")
        if to_addr = "" then
          ⟨⟨500, false, "Recipient email not configured."⟩, st, none, []⟩
        else
          let from_addr := smtp_config.mail_username.getD ""
          let sender_name :=
            pyOrStr smtp_config.default_sender_name
              (pyOrStr settings.company_name "Hotel Furniture Website")
          let subject := "Contact Form: " ++ subj ++ " - From " ++ name
          let body_lines :=
            ["<h2>New Contact Inquiry</h2>",
             "<p><strong>Name:</strong> " ++ name ++ "</p>",
             "<p><strong>Email:</strong> " ++ email ++ "</p>"] ++
            (if phone ≠ "" then ["<p><strong>Phone/WhatsApp:</strong> " ++ phone ++ "</p>"]
             else []) ++
            (if company ≠ "" then ["<p><strong>Company:</strong> " ++ company ++ "</p>"]
             else []) ++
            ["<p><strong>Subject:</strong> " ++ subj ++ "</p>",
             "<hr>",
             "<p><strong>Message:</strong><br>" ++ replaceNewlineBr message ++ "</p>",
             "<hr>",
             "<p><em>This message was sent from the website contact form.</em></p>"]
          let body_str := joinNl body_lines
          let body :=
            if ¬ pyInStr "<meta charset" (pyLower body_str) then
              "<meta charset=\"utf-8\">\n" ++ body_str
            else body_str
          let args : MailArgs :=
            { smtp_server := smtp_config.mail_server.getD ""
              smtp_port := smtp_config.mail_port.getD 0
              username := smtp_config.mail_username.getD ""
              password := smtp_config.mail_password.getD ""
              from_addr := from_addr
              to_addr := to_addr
              subject := subject
              body := body
              is_html := true
              use_ssl := smtp_config.mail_use_ssl
              use_tls := smtp_config.mail_use_tls
              sender_name := sender_name
              attachments := none }
          let r := send_email menv st.lastSend clock.now args
          if r.success then
            ⟨⟨200, true, "Your message has been sent successfully! We will reply soon."⟩,
             ⟨st.lastInquiry, r.lastSend⟩, some args, r.events⟩
          else
            let status := if pyInStr "Server" r.message then 500 else 429
            ⟨⟨status, false, pyOr2 r.message "Failed to send message. Please try again later."⟩,
             ⟨st.lastInquiry, r.lastSend⟩, some args, r.events⟩

/-! ## Concrete objects used by counterexamples and witnesses -/

/-- A concrete product row (primary key 1). -/
def exProduct : Product :=
  ⟨1, "Bed", "pc284539245", some "bed.jpg", some 2000, some 1800, some 400, none, none⟩

/-- A concrete cart environment whose product table holds `exProduct`. -/
def exCartEnv : CartEnv :=
  ⟨fun i => if i = 1 then some exProduct else none,
   fun _ => "/static/uploads/products/bed.jpg", "/static/img/placeholder.jpg"⟩

/-- One line of the full example cart (ids 100..149). -/
def fullCartLine (k : Nat) : CartItem :=
  ⟨Int.ofNat k + 100, "Item", "pc000000000", none, "/static/img/placeholder.jpg", 1,
   none, none, none, "常规产品", "未分类"⟩

/-- A session cart already holding `MAX_ITEMS` distinct lines. -/
def fullCart : List CartItem := (List.range 50).map fullCartLine

/-- A one-line session cart (product id 1). -/
def oneLineCart : List CartItem :=
  [⟨1, "Bed", "pc284539245", some "bed.jpg", "/static/uploads/products/bed.jpg", 2,
    some 2000, some 1800, some 400, "常规产品", "未分类"⟩]

/-- A fully configured `Settings` row. -/
def exSettings : Settings := ⟨some "sales@example.com", some "Example Furniture", "official"⟩

/-- A complete, active SMTP configuration row. -/
def exSmtp : SmtpConfig :=
  ⟨some "smtp.example.com", some 465, some "bot@example.com", some "secret",
   true, false, true, some "酒店家具官網"⟩

/-- A database with both configuration rows present and complete. -/
def exDb : Db := ⟨some exSettings, some exSmtp⟩

/-- A filesystem on which no upload exists. -/
def exFs : Fs :=
  ⟨"/app/static/uploads/products", fun _ => false, fun _ => false, fun _ => 0,
   fun _ => [], fun _ => none⟩

/-- A concrete wall clock. -/
def exClock : Clock := ⟨1000000, "2026-01-20", "2026-01-20 13:46:40 UTC"⟩

/-- A valid customer payload (name, email and phone present). -/
def exCi : CustomerInfo :=
  ⟨some "Alice", some "a@b.com", some "123", none, none, none, some "Hello"⟩

/-- A one-product inquiry payload. -/
def exItems : List InqItem := [⟨some "Bed", some "pc284539245", some 2, some "bed.jpg"⟩]

/-- A customer payload without any phone/whatsapp value. -/
def exCiNoPhone : CustomerInfo :=
  ⟨some "Alice", some "a@b.com", none, none, none, none, some "Hi"⟩

/-- A transport world in which every SMTP attempt fails. -/
def failMailEnv : MailEnv := ⟨fun _ => false, fun _ => "Connection refused", true, ""⟩

/-- A transport world in which every SMTP attempt succeeds. -/
def okMailEnv : MailEnv := ⟨fun _ => true, fun _ => "", true, ""⟩

/-- Concrete, fully populated transport arguments. -/
def exMailArgs : MailArgs :=
  ⟨"smtp.example.com", 465, "bot@example.com", "secret", "bot@example.com",
   "sales@example.com", "Subject", "Body", true, false, true, "Example Furniture", none⟩

/-- A well-formed `/cart/send-inquiry` request body. -/
def exCartReq : CartInqReq := ⟨some exItems, some exCi⟩

/-- A well-formed `/contact/send` request body. -/
def exContactReq : ContactReq :=
  ⟨some "Alice", some "a@b.com", some "123", none, some "Hi", some "Hello there", none⟩

/-- A `/contact/send` request with a blank name (fails validation). -/
def blankNameContactReq : ContactReq :=
  ⟨some "  ", some "a@b.com", none, none, none, some "Hello", none⟩

/-- A database whose SMTP configuration row is missing. -/
def noSmtpDb : Db := ⟨some exSettings, none⟩

/-- `exSmtp` with the active flag cleared. -/
def inactiveSmtp : SmtpConfig := { exSmtp with is_active := false }

/-- A database whose SMTP configuration row is present but inactive. -/
def inactiveSmtpDb : Db := ⟨some exSettings, some inactiveSmtp⟩

/-- A `Settings` row without a recipient address. -/
def noEmailSettings : Settings := ⟨none, some "Example Furniture", "official"⟩

/-- An active SMTP row without a username. -/
def noUserSmtp : SmtpConfig :=
  ⟨some "smtp.example.com", some 465, none, some "secret", true, false, true, none⟩

/-- A database with neither a recipient address nor an SMTP username, so
the contact route cannot resolve a recipient. -/
def noRecipientDb : Db := ⟨some noEmailSettings, some noUserSmtp⟩

/-! ## Cart lemmas -/

theorem enrichLine_id (env : CartEnv) (item : CartItem) : (enrichLine env item).id = item.id := by
  unfold enrichLine; split <;> rfl

theorem get_cart_length (env : CartEnv) (s : List CartItem) :
    (get_cart env s).length = s.length := by
  simp [get_cart]

theorem mem_get_cart_id_ne (env : CartEnv) {s : List CartItem} {pid : Int}
    (hnot : ∀ j ∈ s, j.id ≠ pid) : ∀ i ∈ get_cart env s, i.id ≠ pid := by
  intro i hi
  rcases List.mem_map.mp hi with ⟨j, hj, rfl⟩
  rw [enrichLine_id]
  exact hnot j hj

theorem setQtyFirst_length (l : List CartItem) (pid q : Int) :
    (setQtyFirst l pid q).length = l.length := by
  induction l with
  | nil => rfl
  | cons i rest ih => unfold setQtyFirst; split <;> simp [ih]

theorem add_to_cart_length_le (env : CartEnv) (s : List CartItem) (pid qty : Int)
    (h : s.length ≤ MAX_ITEMS) : (add_to_cart env s pid qty).1.length ≤ MAX_ITEMS := by
  simp only [add_to_cart]
  split
  · exact h
  · split
    · exact h
    · split
      · exact h
      · rename_i hguard
        split
        · split
          · exact h
          · simpa [setQtyFirst_length, get_cart_length] using h
        · rename_i hfind
          have hany : ¬ (get_cart env s).any (fun i => i.id = pid) = true := by
            intro hcontra
            rcases List.any_eq_true.mp hcontra with ⟨x, hx, hxid⟩
            exact (List.find?_eq_none.mp hfind x hx) hxid
          have hlt : ¬ (get_cart env s).length ≥ MAX_ITEMS := fun hge => hguard ⟨hge, hany⟩
          have := get_cart_length env s
          simp only [List.length_append, List.length_cons, List.length_nil]
          omega

theorem remove_from_cart_length_le (env : CartEnv) (s : List CartItem) (pid : Int)
    (h : s.length ≤ MAX_ITEMS) : (remove_from_cart env s pid).1.length ≤ MAX_ITEMS := by
  simp only [remove_from_cart]
  split
  · exact h
  · calc ((get_cart env s).filter fun i => i.id ≠ pid).length
        ≤ (get_cart env s).length := List.length_filter_le _ _
      _ = s.length := get_cart_length env s
      _ ≤ MAX_ITEMS := h

theorem update_quantity_length_le (env : CartEnv) (s : List CartItem) (pid qty : Int)
    (h : s.length ≤ MAX_ITEMS) : (update_quantity env s pid qty).1.length ≤ MAX_ITEMS := by
  simp only [update_quantity]
  split
  · exact remove_from_cart_length_le env s pid h
  · split
    · split
      · exact h
      · simpa [setQtyFirst_length, get_cart_length] using h
    · exact h

theorem cart_reachable_length_le (env : CartEnv) {s : List CartItem}
    (h : CartReachable env s) : s.length ≤ MAX_ITEMS := by
  induction h with
  | init => simp [MAX_ITEMS]
  | step _ hstep ih =>
    cases hstep with
    | add pid qty => exact add_to_cart_length_le env _ pid qty ih
    | update pid qty => exact update_quantity_length_le env _ pid qty ih
    | remove pid => exact remove_from_cart_length_le env _ pid ih
    | clear => simp [clear_cart, MAX_ITEMS]

theorem add_to_cart_full (env : CartEnv) (s : List CartItem) (pid qty : Int) (p : Product)
    (hq : ¬ qty < 1) (hp : env.db pid = some p) (hfull : s.length ≥ MAX_ITEMS)
    (hnot : ∀ i ∈ s, i.id ≠ pid) :
    add_to_cart env s pid qty =
      (s, (false, "购物车已满（最多 " ++ toString MAX_ITEMS ++ " 种商品）")) := by
  simp only [add_to_cart]
  rw [if_neg hq]
  split
  · rename_i heq; rw [hp] at heq; cases heq
  · rw [if_pos]
    constructor
    · rw [get_cart_length]; exact hfull
    · intro hcontra
      rcases List.any_eq_true.mp hcontra with ⟨x, hx, hxid⟩
      exact mem_get_cart_id_ne env hnot x hx (by simpa using hxid)

theorem remove_from_cart_absent (env : CartEnv) (s : List CartItem) (pid : Int)
    (hnot : ∀ i ∈ s, i.id ≠ pid) :
    remove_from_cart env s pid =
      (s, (false, "购物车中未找到产品 ID " ++ toString pid)) := by
  simp only [remove_from_cart]
  have hfilter : ((get_cart env s).filter fun i => i.id ≠ pid) = get_cart env s := by
    apply List.filter_eq_self.mpr
    intro a ha
    simpa using mem_get_cart_id_ne env hnot a ha
  rw [hfilter, if_pos rfl]

/-! ## Claim theorems: cart invariants -/

/-- C6 (code bug exhibit): `add_to_cart` enforces `MAX_QTY_PER_ITEM`
when incrementing an existing line and in `update_quantity`, but not
when appending a new line: adding a product that is not yet in the cart
with requested quantity 1000 succeeds and stores a line whose quantity
1000 exceeds the documented cap of 999, so the claimed invariant
quantity ∈ [1, MAX_QTY_PER_ITEM] fails on a reachable state. -/
theorem c6_new_line_exceeds_qty_cap :
    (add_to_cart exCartEnv [] 1 1000).2.1 = true ∧
    ∃ i ∈ (add_to_cart exCartEnv [] 1 1000).1, i.qty = 1000 ∧ i.qty > MAX_QTY_PER_ITEM := by
  decide

/-- C7: every cart state reachable through `CartService` operations
holds at most `MAX_ITEMS` (50) lines, and adding a product that has no
line in a cart already holding at least `MAX_ITEMS` lines fails with the
cart-full message and leaves the stored cart exactly unchanged. -/
theorem c7_cart_max_items (env : CartEnv) (s s' : List CartItem) (pid qty : Int) (p : Product)
    (hreach : CartReachable env s) (hq : ¬ qty < 1) (hp : env.db pid = some p)
    (hfull : s'.length ≥ MAX_ITEMS) (hnot : ∀ i ∈ s', i.id ≠ pid) :
    s.length ≤ MAX_ITEMS ∧
    add_to_cart env s' pid qty =
      (s', (false, "购物车已满（最多 " ++ toString MAX_ITEMS ++ " 种商品）")) :=
  ⟨cart_reachable_length_le env hreach, add_to_cart_full env s' pid qty p hq hp hfull hnot⟩

theorem c7_cart_max_items_witness :
    (add_to_cart exCartEnv [] 1 2).1.length ≤ MAX_ITEMS ∧
    add_to_cart exCartEnv fullCart 1 2 =
      (fullCart, (false, "购物车已满（最多 " ++ toString MAX_ITEMS ++ " 种商品）")) :=
  c7_cart_max_items exCartEnv _ fullCart 1 2 exProduct
    (CartReachable.step CartReachable.init (CartStep.add [] 1 2)) (by decide) rfl
    (by decide) (by decide)

/-- C8: `update_quantity` with a quantity below 1 literally delegates to
`remove_from_cart` (same result, same stored cart), and removing a
product that has no line in the cart returns a failure message while
leaving the stored cart unchanged (the embedding is a total function:
no exception is raised). -/
theorem c8_update_below_one_is_remove (env : CartEnv) (stored s' : List CartItem)
    (pid qty : Int) (hq : qty < 1) (hnot : ∀ i ∈ s', i.id ≠ pid) :
    update_quantity env stored pid qty = remove_from_cart env stored pid ∧
    remove_from_cart env s' pid = (s', (false, "购物车中未找到产品 ID " ++ toString pid)) :=
  ⟨by simp only [update_quantity]; rw [if_pos hq], remove_from_cart_absent env s' pid hnot⟩

theorem c8_update_below_one_is_remove_witness :
    update_quantity exCartEnv oneLineCart 7 0 = remove_from_cart exCartEnv oneLineCart 7 ∧
    remove_from_cart exCartEnv oneLineCart 7 =
      (oneLineCart, (false, "购物车中未找到产品 ID " ++ toString (7 : Int))) :=
  c8_update_below_one_is_remove exCartEnv oneLineCart oneLineCart 7 0 (by decide) (by decide)

/-! ## Transport lemmas -/

theorem sendLoop_all_fail (env : MailEnv) (ssl : Bool) (d : ℚ) (mr : Nat)
    (hfail : ∀ k, env.attemptSucceeds k = false) :
    ∀ fuel a : Nat, (sendLoop env ssl d mr a fuel).2.1 = false := by
  intro fuel
  induction fuel with
  | zero => intro _; rfl
  | succ n ih =>
    intro a
    simp only [sendLoop, hfail a]
    rw [if_neg Bool.false_ne_true]
    split
    · rfl
    · exact ih (a + 1)

theorem send_email_all_fail (env : MailEnv) (lastSend : StoredTime) (now : Int)
    (args : MailArgs) (mr : Nat) (d : ℚ)
    (hfail : ∀ k, env.attemptSucceeds k = false) :
    (send_email env lastSend now args mr d).success = false ∧
    (send_email env lastSend now args mr d).lastSend = lastSend := by
  simp only [send_email]
  split
  · exact ⟨rfl, rfl⟩
  · split
    · exact ⟨rfl, rfl⟩
    · split
      · exact ⟨rfl, rfl⟩
      · rw [sendLoop_all_fail env _ d mr hfail mr 1]
        simp

theorem send_inquiry_all_fail (db : Db) (fs : Fs) (menv : MailEnv) (clock : Clock)
    (ip : String) (st : InquiryState) (items : List InqItem) (ci : CustomerInfo)
    (hfail : ∀ k, menv.attemptSucceeds k = false) :
    (send_inquiry db fs menv clock ip st items ci).success = false ∧
    (send_inquiry db fs menv clock ip st items ci).state = st := by
  simp only [send_inquiry]
  split
  · exact ⟨rfl, rfl⟩
  · split
    · exact ⟨rfl, rfl⟩
    · split
      · exact ⟨rfl, rfl⟩
      · rw [(send_email_all_fail menv st.lastSend clock.now _ 3 2 hfail).1,
            if_neg Bool.false_ne_true]
        refine ⟨rfl, ?_⟩
        rw [(send_email_all_fail menv st.lastSend clock.now _ 3 2 hfail).2]

theorem sendLoop_connect_le (env : MailEnv) (ssl : Bool) (d : ℚ) (mr : Nat) :
    ∀ fuel a : Nat, ((sendLoop env ssl d mr a fuel).1.countP isConnect) ≤ fuel := by
  intro fuel
  induction fuel with
  | zero => intro _; simp [sendLoop]
  | succ n ih =>
    intro a
    simp only [sendLoop]
    split
    · simp [isConnect]
    · split
      · simp [isConnect]
      · have h := ih (a + 1)
        simp [List.countP_cons, isConnect]
        omega

theorem send_email_exhausted (env : MailEnv) (lastSend : StoredTime) (now : Int)
    (args : MailArgs)
    (hcool : mailCooldownBlock lastSend now = none)
    (hcfg : ¬ (args.smtp_server = "" ∨ args.smtp_port = 0 ∨ args.username = "" ∨
      args.password = "" ∨ args.from_addr = "" ∨ args.to_addr = ""))
    (hser : env.serializeOk = true)
    (hfail : ∀ k, env.attemptSucceeds k = false) :
    send_email env lastSend now args =
      ⟨false, "經過 3 次重試後發送失敗：" ++ env.errText 3, lastSend,
       [.connect (args.use_ssl || args.smtp_port = 465), .sleep 2,
        .connect (args.use_ssl || args.smtp_port = 465), .sleep 4,
        .connect (args.use_ssl || args.smtp_port = 465)]⟩ := by
  simp only [send_email, hcool]
  rw [if_neg hcfg]
  simp only [hser, not_true, if_false]
  simp [sendLoop, hfail]
  norm_num
  rfl

/-! ## Claim theorems: transport behaviour -/

/-- C1: when every SMTP attempt fails, `send_email` returns a failure
result and leaves the `last_email_send_time` session key exactly as it
was, and `InquiryService.send_inquiry` returns a failure result and
leaves both cooldown session keys (`last_inquiry_time` and
`last_email_send_time`) exactly as they were, so a retry is not newly
blocked by the failed attempt. -/
theorem c1_transport_failure_preserves_cooldown
    (db : Db) (fs : Fs) (menv : MailEnv) (clock : Clock) (ip : String) (st : InquiryState)
    (items : List InqItem) (ci : CustomerInfo) (lastSend : StoredTime) (now : Int)
    (args : MailArgs) (mr : Nat) (d : ℚ)
    (hfail : ∀ k, menv.attemptSucceeds k = false) :
    ((send_email menv lastSend now args mr d).success = false ∧
     (send_email menv lastSend now args mr d).lastSend = lastSend) ∧
    ((send_inquiry db fs menv clock ip st items ci).success = false ∧
     (send_inquiry db fs menv clock ip st items ci).state = st) :=
  ⟨send_email_all_fail menv lastSend now args mr d hfail,
   send_inquiry_all_fail db fs menv clock ip st items ci hfail⟩

theorem c1_transport_failure_preserves_cooldown_witness :
    ((send_email failMailEnv (.time 999000) 1000000 exMailArgs 3 2).success = false ∧
     (send_email failMailEnv (.time 999000) 1000000 exMailArgs 3 2).lastSend = .time 999000) ∧
    ((send_inquiry exDb exFs failMailEnv exClock "1.2.3.4"
        ⟨.time 999000, .time 999000⟩ exItems exCi).success = false ∧
     (send_inquiry exDb exFs failMailEnv exClock "1.2.3.4"
        ⟨.time 999000, .time 999000⟩ exItems exCi).state = ⟨.time 999000, .time 999000⟩) :=
  c1_transport_failure_preserves_cooldown exDb exFs failMailEnv exClock "1.2.3.4"
    ⟨.time 999000, .time 999000⟩ exItems exCi (.time 999000) 1000000 exMailArgs 3 2
    (fun _ => rfl)

/-- C9: the transport makes at most 3 connection attempts per call (the
reference retry bound, each attempt opening a fresh connection), and
when every attempt fails it returns — rather than raises — a final
aggregated error naming the retry count and the last exception, having
opened exactly three fresh connections with exponentially growing
(doubling) backoff sleeps of 2 s and 4 s between consecutive
attempts. -/
theorem c9_retry_policy (menv : MailEnv) (lastSend : StoredTime) (now : Int) (args : MailArgs)
    (hcool : mailCooldownBlock lastSend now = none)
    (hcfg : ¬ (args.smtp_server = "" ∨ args.smtp_port = 0 ∨ args.username = "" ∨
      args.password = "" ∨ args.from_addr = "" ∨ args.to_addr = ""))
    (hser : menv.serializeOk = true)
    (hfail : ∀ k, menv.attemptSucceeds k = false) :
    (∀ (menv2 : MailEnv) (ls2 : StoredTime) (n2 : Int) (a2 : MailArgs),
       ((send_email menv2 ls2 n2 a2).events.countP isConnect) ≤ 3) ∧
    send_email menv lastSend now args =
      ⟨false, "經過 3 次重試後發送失敗：" ++ menv.errText 3, lastSend,
       [.connect (args.use_ssl || args.smtp_port = 465), .sleep 2,
        .connect (args.use_ssl || args.smtp_port = 465), .sleep 4,
        .connect (args.use_ssl || args.smtp_port = 465)]⟩ := by
  constructor
  · intro menv2 ls2 n2 a2
    simp only [send_email]
    split
    · simp
    · split
      · simp
      · split
        · simp
        · split
          · exact sendLoop_connect_le menv2 _ 2 3 3 1
          · exact sendLoop_connect_le menv2 _ 2 3 3 1
  · exact send_email_exhausted menv lastSend now args hcool hcfg hser hfail

theorem c9_retry_policy_witness :
    (∀ (menv2 : MailEnv) (ls2 : StoredTime) (n2 : Int) (a2 : MailArgs),
       ((send_email menv2 ls2 n2 a2).events.countP isConnect) ≤ 3) ∧
    send_email failMailEnv .absent 0 exMailArgs =
      ⟨false, "經過 3 次重試後發送失敗：" ++ failMailEnv.errText 3, .absent,
       [.connect (exMailArgs.use_ssl || exMailArgs.smtp_port = 465), .sleep 2,
        .connect (exMailArgs.use_ssl || exMailArgs.smtp_port = 465), .sleep 4,
        .connect (exMailArgs.use_ssl || exMailArgs.smtp_port = 465)]⟩ :=
  c9_retry_policy failMailEnv .absent 0 exMailArgs rfl (by decide) rfl (fun _ => rfl)

/-! ## Orchestrator lemmas -/

theorem get_common_config_ok {db : Db} {s : Settings} {m : SmtpConfig}
    (h : get_common_config db = .ok (s, m)) :
    (s.email1.getD "") ≠ "" ∧ (m.mail_server.getD "") ≠ "" ∧ (m.mail_port.getD 0) ≠ 0 ∧
    (m.mail_username.getD "") ≠ "" ∧ (m.mail_password.getD "") ≠ "" := by
  unfold get_common_config at h
  cases hdb : db.settingsRow with
  | none => rw [hdb] at h; cases h
  | some s0 =>
    simp only [hdb] at h
    by_cases he : (s0.email1.getD "") = ""
    · rw [if_pos he] at h; cases h
    · rw [if_neg he] at h
      cases hm : db.smtpRow with
      | none => rw [hm] at h; cases h
      | some m0 =>
        simp only [hm] at h
        by_cases hg : (m0.mail_server.getD "") = "" ∨ (m0.mail_port.getD 0) = 0 ∨
            (m0.mail_username.getD "") = "" ∨ (m0.mail_password.getD "") = ""
        · rw [if_pos hg] at h; cases h
        · rw [if_neg hg] at h
          injection h with h'
          cases h'
          push_neg at hg
          exact ⟨he, hg.1, hg.2.1, hg.2.2.1, hg.2.2.2⟩

theorem send_email_first_try (env : MailEnv) (lastSend : StoredTime) (now : Int)
    (args : MailArgs)
    (hcool : mailCooldownBlock lastSend now = none)
    (hcfg : ¬ (args.smtp_server = "" ∨ args.smtp_port = 0 ∨ args.username = "" ∨
      args.password = "" ∨ args.from_addr = "" ∨ args.to_addr = ""))
    (hser : env.serializeOk = true)
    (hatt : env.attemptSucceeds 1 = true) :
    send_email env lastSend now args =
      ⟨true, "郵件發送成功", .time now,
       [.connect (args.use_ssl || args.smtp_port = 465)]⟩ := by
  simp only [send_email, hcool]
  rw [if_neg hcfg]
  simp only [hser, not_true, if_false]
  simp [sendLoop, hatt]

theorem send_inquiry_success_of (db : Db) (fs : Fs) (menv : MailEnv) (clock : Clock)
    (ip : String) (st : InquiryState) (items : List InqItem) (ci : CustomerInfo)
    (s0 : Settings) (m0 : SmtpConfig)
    (hcool : check_cooldown st.lastInquiry clock.now = (true, none))
    (hmail : mailCooldownBlock st.lastSend clock.now = none)
    (hv : validate_input ci (items.length > 0) = (true, none))
    (hc : get_common_config db = .ok (s0, m0))
    (hser : menv.serializeOk = true)
    (hatt : menv.attemptSucceeds 1 = true) :
    (send_inquiry db fs menv clock ip st items ci).success = true ∧
    (send_inquiry db fs menv clock ip st items ci).state = ⟨.time clock.now, .time clock.now⟩ ∧
    (send_inquiry db fs menv clock ip st items ci).message =
      "Your message has been sent successfully! We will get back to you soon." := by
  obtain ⟨he, hs, hp, hu, hpw⟩ := get_common_config_ok hc
  have hargs : ¬ ((m0.mail_server.getD "") = "" ∨ (m0.mail_port.getD 0) = 0 ∨
      (m0.mail_username.getD "") = "" ∨ (m0.mail_password.getD "") = "" ∨
      (m0.mail_username.getD "") = "" ∨ (s0.email1.getD "") = "") := by
    push_neg
    exact ⟨hs, hp, hu, hpw, hu, he⟩
  simp only [send_inquiry, hcool, hv, hc]
  rw [send_email_first_try menv st.lastSend clock.now _ hmail hargs hser hatt]
  simp

theorem validate_input_contact_no_phone (ci : CustomerInfo)
    (hname : pyStrip (ci.name.getD "") ≠ "")
    (hat : pyHasChar (pyStrip (ci.email.getD "")) '@' = true)
    (hdot : pyHasChar ((pySplitChar (pyStrip (ci.email.getD "")) '@').getLastD "") '.' = true) :
    validate_input ci false = (true, none) := by
  have hemail : pyStrip (ci.email.getD "") ≠ "" := by
    intro h
    rw [h] at hat
    exact absurd hat (by decide)
  simp only [List.getLastD_eq_getLast?] at hdot
  simp only [validate_input, List.find?, ciGet]
  simp [hname, hemail, hat, hdot]

/-! ## Claim theorems: cooldown and validation -/

/-- C4: starting from a session whose last recorded submission was at
time `t` (both cooldown keys set at `t`), a second submission at
`clock.now` strictly inside the 120-second window is rejected with the
rate-limit message of the guard, no transport call is made and the
session state is unchanged; once the window has elapsed, a submission
with valid input, complete configuration and a working transport
succeeds again. -/
theorem c4_cooldown_window (db : Db) (fs : Fs) (menv : MailEnv) (clock : Clock) (ip : String)
    (t : Int) (items : List InqItem) (ci : CustomerInfo) (s0 : Settings) (m0 : SmtpConfig)
    (hv : validate_input ci (items.length > 0) = (true, none))
    (hc : get_common_config db = .ok (s0, m0))
    (hser : menv.serializeOk = true)
    (hatt : menv.attemptSucceeds 1 = true) :
    (clock.now - t < 120 →
      ∃ msg, check_cooldown (.time t) clock.now = (false, some msg) ∧
        send_inquiry db fs menv clock ip ⟨.time t, .time t⟩ items ci =
          ⟨false, msg, ⟨.time t, .time t⟩, false, [], false, none, []⟩) ∧
    (120 ≤ clock.now - t →
      (send_inquiry db fs menv clock ip ⟨.time t, .time t⟩ items ci).success = true ∧
      (send_inquiry db fs menv clock ip ⟨.time t, .time t⟩ items ci).state =
        ⟨.time clock.now, .time clock.now⟩) := by
  constructor
  · intro hlt
    have hcc : check_cooldown (.time t) clock.now =
        (false, some (cooldownMessage
          (if (120 - (clock.now - t)) % 60 ≠ 0 then (120 - (clock.now - t)) / 60 + 1
           else (120 - (clock.now - t)) / 60))) := by
      simp only [check_cooldown]
      rw [if_pos hlt]
    refine ⟨_, hcc, ?_⟩
    simp only [send_inquiry, hcc, Option.getD_some]
  · intro hge
    have hcool : check_cooldown (.time t) clock.now = (true, none) := by
      simp only [check_cooldown]
      rw [if_neg (not_lt.mpr hge)]
    have hmail : mailCooldownBlock (.time t) clock.now = none := by
      simp only [mailCooldownBlock]
      rw [if_neg (not_lt.mpr hge)]
    have h := send_inquiry_success_of db fs menv clock ip ⟨.time t, .time t⟩ items ci s0 m0
      hcool hmail hv hc hser hatt
    exact ⟨h.1, h.2.1⟩

theorem c4_cooldown_window_witness :
    (exClock.now - 999000 < 120 →
      ∃ msg, check_cooldown (.time 999000) exClock.now = (false, some msg) ∧
        send_inquiry exDb exFs okMailEnv exClock "1.2.3.4"
            ⟨.time 999000, .time 999000⟩ exItems exCi =
          ⟨false, msg, ⟨.time 999000, .time 999000⟩, false, [], false, none, []⟩) ∧
    (120 ≤ exClock.now - 999000 →
      (send_inquiry exDb exFs okMailEnv exClock "1.2.3.4"
          ⟨.time 999000, .time 999000⟩ exItems exCi).success = true ∧
      (send_inquiry exDb exFs okMailEnv exClock "1.2.3.4"
          ⟨.time 999000, .time 999000⟩ exItems exCi).state =
        ⟨.time exClock.now, .time exClock.now⟩) :=
  c4_cooldown_window exDb exFs okMailEnv exClock "1.2.3.4" 999000 exItems exCi
    exSettings exSmtp (by decide) rfl rfl rfl

/-- C5 counterexample: a contact-only submission (`items = []`) that
passes cooldown, validation and configuration goes through the whole
pipeline successfully — and `_prepare_attachments` IS invoked (the call
at `inquiry_service.py:232` is unconditional), contradicting the claim
that a contact-only submission never invokes the Attachment
Assembler. -/
theorem c5_contact_only_invokes_assembler :
    (send_inquiry exDb exFs okMailEnv exClock "1.2.3.4"
        ⟨.absent, .absent⟩ [] exCi).success = true ∧
    (send_inquiry exDb exFs okMailEnv exClock "1.2.3.4"
        ⟨.absent, .absent⟩ [] exCi).assemblerCalled = true := by
  decide

/-- C5 (amended): a contact-only submission still calls
`_prepare_attachments`, but on the empty item list the call touches no
file on disk and contributes no attachment to the outgoing mail; a
contact-only submission never requires a phone field — validation
passes for EVERY payload with a non-blank name and a well-formed email,
whatever its phone field holds (in particular with no phone at all); and
a non-empty inquiry whose `customer_info` has a blank or missing phone
fails validation with "Please provide your Phone" before any body is
composed or any transport call is made, leaving the session state
unchanged. -/
theorem c5_contact_only_and_phone_rule (db : Db) (fs : Fs) (menv : MailEnv) (clock : Clock)
    (ip : String) (st : InquiryState) (ci : CustomerInfo) (items : List InqItem)
    (hne : items ≠ [])
    (hcool : check_cooldown st.lastInquiry clock.now = (true, none))
    (hname : pyStrip (ci.name.getD "") ≠ "")
    (hemail : pyStrip (ci.email.getD "") ≠ "")
    (hphone : pyStrip (ci.phone.getD "") = "") :
    prepare_attachments fs [] = ([], "Product main images (0 attached)", []) ∧
    (send_inquiry db fs menv clock ip st [] ci).fsAccessed = [] ∧
    (∀ a, (send_inquiry db fs menv clock ip st [] ci).mailCalled = some a →
      a.attachments = some []) ∧
    (∀ ci' : CustomerInfo, pyStrip (ci'.name.getD "") ≠ "" →
      pyHasChar (pyStrip (ci'.email.getD "")) '@' = true →
      pyHasChar ((pySplitChar (pyStrip (ci'.email.getD "")) '@').getLastD "") '.' = true →
      validate_input ci' false = (true, none)) ∧
    send_inquiry db fs menv clock ip st items ci =
      ⟨false, "Please provide your Phone", st, false, [], false, none, []⟩ := by
  have hprep : prepare_attachments fs [] = ([], "Product main images (0 attached)", []) := by
    simp only [prepare_attachments, List.foldl_nil]
    norm_num
    decide
  refine ⟨hprep, ?_, ?_, validate_input_contact_no_phone, ?_⟩
  · simp only [send_inquiry, List.length_nil]
    norm_num
    split
    · rfl
    · split
      · rfl
      · split
        · rfl
        · split <;> rfl
  · intro a ha
    simp only [send_inquiry, List.length_nil] at ha
    norm_num at ha
    revert ha
    split
    · intro ha; cases ha
    · split
      · intro ha; cases ha
      · split
        · intro ha; cases ha
        · split <;>
          · intro ha
            injection ha with ha'
            rw [← ha']
            simp [hprep]
  · have hlen : decide (items.length > 0) = true :=
      decide_eq_true (List.length_pos.mpr hne)
    have hval : validate_input ci true = (false, some "Please provide your Phone") := by
      simp only [validate_input, List.find?, ciGet]
      simp [hname, hemail, hphone]
      decide
    simp only [send_inquiry, hcool, hlen, hval, Option.getD_some]

theorem c5_contact_only_and_phone_rule_witness :
    prepare_attachments exFs [] = ([], "Product main images (0 attached)", []) ∧
    (send_inquiry exDb exFs okMailEnv exClock "1.2.3.4"
        ⟨.absent, .absent⟩ [] exCiNoPhone).fsAccessed = [] ∧
    (∀ a, (send_inquiry exDb exFs okMailEnv exClock "1.2.3.4"
        ⟨.absent, .absent⟩ [] exCiNoPhone).mailCalled = some a →
      a.attachments = some []) ∧
    validate_input exCiNoPhone false = (true, none) ∧
    send_inquiry exDb exFs okMailEnv exClock "1.2.3.4"
        ⟨.absent, .absent⟩ exItems exCiNoPhone =
      ⟨false, "Please provide your Phone", ⟨.absent, .absent⟩, false, [], false, none, []⟩ :=
  have h := c5_contact_only_and_phone_rule exDb exFs okMailEnv exClock "1.2.3.4"
    ⟨.absent, .absent⟩ exCiNoPhone exItems (by decide) rfl (by decide) (by decide) rfl
  ⟨h.1, h.2.1, h.2.2.1, h.2.2.2.1 exCiNoPhone (by decide) (by decide) (by decide),
   h.2.2.2.2⟩

/-- C10: a stored cooldown timestamp that `datetime.fromisoformat`
cannot parse is treated as allowed (fail-open) by both cooldown guards —
the inquiry-service guard and the transport-level guard — and a
submission with valid input, complete configuration and a working
transport succeeds from such a session state: an unparseable stored
value never blocks a submission. -/
theorem c10_malformed_timestamp_fail_open (now : Int) (db : Db) (fs : Fs) (menv : MailEnv)
    (clock : Clock) (ip : String) (items : List InqItem) (ci : CustomerInfo)
    (s0 : Settings) (m0 : SmtpConfig)
    (hv : validate_input ci (items.length > 0) = (true, none))
    (hc : get_common_config db = .ok (s0, m0))
    (hser : menv.serializeOk = true)
    (hatt : menv.attemptSucceeds 1 = true) :
    check_cooldown .malformed now = (true, none) ∧
    mailCooldownBlock .malformed now = none ∧
    (send_inquiry db fs menv clock ip ⟨.malformed, .malformed⟩ items ci).success = true :=
  ⟨rfl, rfl,
   (send_inquiry_success_of db fs menv clock ip ⟨.malformed, .malformed⟩ items ci s0 m0
      rfl rfl hv hc hser hatt).1⟩

theorem c10_malformed_timestamp_fail_open_witness :
    check_cooldown .malformed 5 = (true, none) ∧
    mailCooldownBlock .malformed 5 = none ∧
    (send_inquiry exDb exFs okMailEnv exClock "1.2.3.4"
        ⟨.malformed, .malformed⟩ exItems exCi).success = true :=
  c10_malformed_timestamp_fail_open 5 exDb exFs okMailEnv exClock "1.2.3.4" exItems exCi
    exSettings exSmtp (by decide) rfl rfl rfl

/-! ## Route lemmas -/

theorem route_cart_busy_500 (cenv : CartEnv) (db : Db) (fs : Fs) (menv : MailEnv)
    (clock : Clock) (ip : String) (authenticated : Bool) (sessionCart : List CartItem)
    (st : InquiryState) (req : CartInqReq)
    (hitems : ¬ ((¬ (authenticated ∧ get_cart cenv sessionCart ≠ [])) ∧ req.items.getD [] = []))
    (hlen : (if authenticated ∧ get_cart cenv sessionCart ≠ [] then
        (get_cart cenv sessionCart).map cartLineToInqItem else req.items.getD []).length ≠ 0)
    (hname : ((req.customer_info.getD emptyCustomerInfo).name.getD "") ≠ "")
    (hemail : ((req.customer_info.getD emptyCustomerInfo).email.getD "") ≠ "") :
    route_cart_send_inquiry cenv db fs menv clock ip authenticated sessionCart st req =
      ⟨⟨500, false, "System is busy, please try again later or contact support"⟩,
       st, none, []⟩ := by
  simp only [route_cart_send_inquiry]
  rw [if_neg hitems, if_neg hlen]
  have hm : (List.filter
      (fun f => decide ((ciGet (req.customer_info.getD emptyCustomerInfo) f).getD "" = ""))
      ["name", "email"]) = [] := by
    simp [List.filter, ciGet, hname, hemail]
  rw [hm, if_neg (by simp : ¬ (([] : List String) ≠ []))]
  rw [show cartCallAccepted = false from rfl, if_neg Bool.false_ne_true]

theorem contact_tail_cases (st : InquiryState) (A : MailArgs) (r : SendEmailResult) :
    ((if r.success then
        (⟨⟨200, true, "Your message has been sent successfully! We will reply soon."⟩,
          ⟨st.lastInquiry, r.lastSend⟩, some A, r.events⟩ : RouteResult)
      else
        ⟨⟨if pyInStr "Server" r.message then 500 else 429, false,
          pyOr2 r.message "Failed to send message. Please try again later."⟩,
         ⟨st.lastInquiry, r.lastSend⟩, some A, r.events⟩).mailCalled = some A) ∧
    (r.success = true →
      (if r.success then
        (⟨⟨200, true, "Your message has been sent successfully! We will reply soon."⟩,
          ⟨st.lastInquiry, r.lastSend⟩, some A, r.events⟩ : RouteResult)
      else
        ⟨⟨if pyInStr "Server" r.message then 500 else 429, false,
          pyOr2 r.message "Failed to send message. Please try again later."⟩,
         ⟨st.lastInquiry, r.lastSend⟩, some A, r.events⟩).resp =
        ⟨200, true, "Your message has been sent successfully! We will reply soon."⟩) ∧
    (r.success = false →
      (if r.success then
        (⟨⟨200, true, "Your message has been sent successfully! We will reply soon."⟩,
          ⟨st.lastInquiry, r.lastSend⟩, some A, r.events⟩ : RouteResult)
      else
        ⟨⟨if pyInStr "Server" r.message then 500 else 429, false,
          pyOr2 r.message "Failed to send message. Please try again later."⟩,
         ⟨st.lastInquiry, r.lastSend⟩, some A, r.events⟩).resp =
        ⟨if pyInStr "Server" r.message then 500 else 429, false,
         pyOr2 r.message "Failed to send message. Please try again later."⟩) := by
  cases hr : r.success
  · simp [hr]
  · simp [hr]

/-! ## Claim theorems: routes -/

/-- C2: every POST to `/cart/send-inquiry` that passes the route's own
checks (a non-empty item selection and a `customer_info` with truthy
`name` and `email`) is answered HTTP 500 with `success = false` and no
transport call: the route invokes `InquiryService.send_inquiry` with the
keyword argument `from_session`, which the signature
`(items, customer_info)` does not accept, so the call raises `TypeError`
and lands in the generic exception branch. -/
theorem c2_cart_route_unexpected_kwarg_500 (cenv : CartEnv) (db : Db) (fs : Fs)
    (menv : MailEnv) (clock : Clock) (ip : String) (authenticated : Bool)
    (sessionCart : List CartItem) (st : InquiryState) (req : CartInqReq)
    (hitems : ¬ ((¬ (authenticated ∧ get_cart cenv sessionCart ≠ [])) ∧ req.items.getD [] = []))
    (hlen : (if authenticated ∧ get_cart cenv sessionCart ≠ [] then
        (get_cart cenv sessionCart).map cartLineToInqItem else req.items.getD []).length ≠ 0)
    (hname : ((req.customer_info.getD emptyCustomerInfo).name.getD "") ≠ "")
    (hemail : ((req.customer_info.getD emptyCustomerInfo).email.getD "") ≠ "") :
    cartCallAccepted = false ∧
    route_cart_send_inquiry cenv db fs menv clock ip authenticated sessionCart st req =
      ⟨⟨500, false, "System is busy, please try again later or contact support"⟩,
       st, none, []⟩ :=
  ⟨rfl, route_cart_busy_500 cenv db fs menv clock ip authenticated sessionCart st req
    hitems hlen hname hemail⟩

theorem c2_cart_route_unexpected_kwarg_500_witness :
    cartCallAccepted = false ∧
    route_cart_send_inquiry exCartEnv exDb exFs okMailEnv exClock "1.2.3.4" false []
        ⟨.absent, .absent⟩ exCartReq =
      ⟨⟨500, false, "System is busy, please try again later or contact support"⟩,
       ⟨.absent, .absent⟩, none, []⟩ :=
  c2_cart_route_unexpected_kwarg_500 exCartEnv exDb exFs okMailEnv exClock "1.2.3.4" false []
    ⟨.absent, .absent⟩ exCartReq (by decide) (by decide) (by decide) (by decide)

/-- C3 counterexample: with a complete, active configuration and a
transport failing all three attempts ("Connection refused"), the contact
endpoint answers the transport failure with HTTP 429 — not the claimed
500. -/
theorem c3_transport_failure_not_500 :
    (route_send_contact exDb failMailEnv exClock ⟨.absent, .absent⟩ exContactReq).resp.status
      = 429 ∧
    ¬ (route_send_contact exDb failMailEnv exClock ⟨.absent, .absent⟩ exContactReq).resp.status
      = 500 ∧
    (route_send_contact exDb failMailEnv exClock ⟨.absent, .absent⟩ exContactReq).resp.success
      = false := by
  decide

/-- C3 (amended): responses are `{success, message}` with status 200
exactly on success.  On the contact endpoint a validation failure yields
400, and a missing SMTP row, an inactive SMTP row and an unresolvable
recipient each yield 500; but every failure result coming back from
`send_email` — cooldown rejections and exhausted-retries transport
failures alike — is mapped by message sniffing, 500 only when the
message contains 'Server' and 429 otherwise, so an exhausted-retries
transport failure is answered 429 rather than 500.  On the cart endpoint
every request passing the route's own checks is answered 500 (the
`from_session` TypeError), regardless of outcome class. -/
theorem c3_status_mapping :
    (∀ (db : Db) (menv : MailEnv) (clock : Clock) (st : InquiryState) (req : ContactReq),
      ((route_send_contact db menv clock st req).resp.status = 200 ↔
       (route_send_contact db menv clock st req).resp.success = true)) ∧
    (∀ (db : Db) (menv : MailEnv) (clock : Clock) (st : InquiryState) (req : ContactReq),
      pyStrip (req.name.getD "") = "" →
      (route_send_contact db menv clock st req).resp =
        ⟨400, false, "Name, Email and Message are required."⟩) ∧
    (∀ (db : Db) (menv : MailEnv) (clock : Clock) (st : InquiryState) (req : ContactReq),
      db.smtpRow = none →
      pyStrip (req.name.getD "") ≠ "" → pyStrip (req.email.getD "") ≠ "" →
      pyStrip (req.message.getD "") ≠ "" →
      (route_send_contact db menv clock st req).resp =
        ⟨500, false, "Mail service not configured. Please contact administrator."⟩) ∧
    (∀ (db : Db) (menv : MailEnv) (clock : Clock) (st : InquiryState) (req : ContactReq)
       (c : SmtpConfig),
      db.smtpRow = some c → c.is_active = false →
      pyStrip (req.name.getD "") ≠ "" → pyStrip (req.email.getD "") ≠ "" →
      pyStrip (req.message.getD "") ≠ "" →
      (route_send_contact db menv clock st req).resp =
        ⟨500, false, "Mail service not configured. Please contact administrator."⟩) ∧
    (∀ (db : Db) (menv : MailEnv) (clock : Clock) (st : InquiryState) (req : ContactReq)
       (c : SmtpConfig),
      db.smtpRow = some c → c.is_active = true →
      pyOrStr (db.settingsRow.getD freshSettings).email1 (c.mail_username.getD "") = "" →
      pyStrip (req.name.getD "") ≠ "" → pyStrip (req.email.getD "") ≠ "" →
      pyStrip (req.message.getD "") ≠ "" →
      (route_send_contact db menv clock st req).resp =
        ⟨500, false, "Recipient email not configured."⟩) ∧
    (∀ (db : Db) (menv : MailEnv) (clock : Clock) (st : InquiryState) (req : ContactReq)
       (c : SmtpConfig),
      pyStrip (req.name.getD "") ≠ "" → pyStrip (req.email.getD "") ≠ "" →
      pyStrip (req.message.getD "") ≠ "" →
      db.smtpRow = some c → c.is_active = true →
      pyOrStr (db.settingsRow.getD freshSettings).email1 (c.mail_username.getD "") ≠ "" →
      ∃ args, (route_send_contact db menv clock st req).mailCalled = some args ∧
        ((send_email menv st.lastSend clock.now args).success = true →
          (route_send_contact db menv clock st req).resp =
            ⟨200, true, "Your message has been sent successfully! We will reply soon."⟩) ∧
        ((send_email menv st.lastSend clock.now args).success = false →
          (route_send_contact db menv clock st req).resp =
            ⟨(if pyInStr "Server" (send_email menv st.lastSend clock.now args).message
               then 500 else 429), false,
             pyOr2 (send_email menv st.lastSend clock.now args).message
               "Failed to send message. Please try again later."⟩)) ∧
    (∀ (db : Db) (menv : MailEnv) (clock : Clock) (st : InquiryState) (req : ContactReq)
       (c : SmtpConfig),
      pyStrip (req.name.getD "") ≠ "" → pyStrip (req.email.getD "") ≠ "" →
      pyStrip (req.message.getD "") ≠ "" →
      db.smtpRow = some c → c.is_active = true →
      (c.mail_server.getD "") ≠ "" → (c.mail_port.getD 0) ≠ 0 →
      (c.mail_username.getD "") ≠ "" → (c.mail_password.getD "") ≠ "" →
      pyOrStr (db.settingsRow.getD freshSettings).email1 (c.mail_username.getD "") ≠ "" →
      mailCooldownBlock st.lastSend clock.now = none →
      menv.serializeOk = true → (∀ k, menv.attemptSucceeds k = false) →
      (route_send_contact db menv clock st req).resp.success = false ∧
      (route_send_contact db menv clock st req).resp.status =
        (if pyInStr "Server" ("經過 3 次重試後發送失敗：" ++ menv.errText 3) then 500 else 429)) ∧
    (∀ (cenv : CartEnv) (db : Db) (fs : Fs) (menv : MailEnv) (clock : Clock) (ip : String)
       (authenticated : Bool) (sessionCart : List CartItem) (st : InquiryState)
       (req : CartInqReq),
      ¬ ((¬ (authenticated ∧ get_cart cenv sessionCart ≠ [])) ∧ req.items.getD [] = []) →
      (if authenticated ∧ get_cart cenv sessionCart ≠ [] then
          (get_cart cenv sessionCart).map cartLineToInqItem
        else req.items.getD []).length ≠ 0 →
      ((req.customer_info.getD emptyCustomerInfo).name.getD "") ≠ "" →
      ((req.customer_info.getD emptyCustomerInfo).email.getD "") ≠ "" →
      (route_cart_send_inquiry cenv db fs menv clock ip authenticated sessionCart st req).resp =
        ⟨500, false, "System is busy, please try again later or contact support"⟩) := by
  refine ⟨?_, ?_, ?_, ?_, ?_, ?_, ?_, ?_⟩
  · intro db menv clock st req
    simp only [route_send_contact]
    repeat' split
    all_goals simp
  · intro db menv clock st req h
    simp only [route_send_contact]
    rw [if_pos (Or.inl h)]
  · intro db menv clock st req hsmtp hn he hm
    simp only [route_send_contact]
    rw [if_neg (by push_neg; exact ⟨hn, he, hm⟩), hsmtp]
  · intro db menv clock st req c hsmtp hactive hn he hm
    simp only [route_send_contact]
    rw [if_neg (by push_neg; exact ⟨hn, he, hm⟩), hsmtp]
    dsimp only
    rw [if_pos (show ¬ (c.is_active = true) by simp [hactive])]
  · intro db menv clock st req c hsmtp hactive hta0 hn he hm
    simp only [route_send_contact]
    rw [if_neg (by push_neg; exact ⟨hn, he, hm⟩), hsmtp]
    dsimp only
    rw [if_neg (show ¬ ¬ (c.is_active = true) by simp [hactive])]
    rw [if_pos hta0]
  · intro db menv clock st req c hn he hm hsmtp hactive hta
    simp only [route_send_contact]
    rw [if_neg (by push_neg; exact ⟨hn, he, hm⟩), hsmtp]
    dsimp only
    rw [if_neg (show ¬ ¬ (c.is_active = true) by simp [hactive])]
    rw [if_neg hta]
    exact ⟨_, (contact_tail_cases st _ _).1, (contact_tail_cases st _ _).2.1,
      (contact_tail_cases st _ _).2.2⟩
  · intro db menv clock st req c hn he hm hsmtp hactive hsrv hport huser hpw hta hcool hser hfail
    simp only [route_send_contact]
    rw [if_neg (by push_neg; exact ⟨hn, he, hm⟩), hsmtp]
    dsimp only
    rw [if_neg (show ¬ ¬ (c.is_active = true) by simp [hactive])]
    rw [if_neg hta]
    rw [send_email_exhausted menv st.lastSend clock.now _ hcool
      (by push_neg; exact ⟨hsrv, hport, huser, hpw, huser, hta⟩) hser hfail]
    dsimp only
    rw [if_neg Bool.false_ne_true]
    exact ⟨rfl, rfl⟩
  · intro cenv db fs menv clock ip authenticated sessionCart st req hitems hlen hname hemail
    rw [route_cart_busy_500 cenv db fs menv clock ip authenticated sessionCart st req
      hitems hlen hname hemail]

theorem c3_status_mapping_witness :
    ((route_send_contact exDb okMailEnv exClock ⟨.absent, .absent⟩ exContactReq).resp.status
        = 200 ↔
      (route_send_contact exDb okMailEnv exClock ⟨.absent, .absent⟩ exContactReq).resp.success
        = true) ∧
    (route_send_contact exDb okMailEnv exClock ⟨.absent, .absent⟩ blankNameContactReq).resp =
      ⟨400, false, "Name, Email and Message are required."⟩ ∧
    (route_send_contact noSmtpDb okMailEnv exClock ⟨.absent, .absent⟩ exContactReq).resp =
      ⟨500, false, "Mail service not configured. Please contact administrator."⟩ ∧
    (route_send_contact inactiveSmtpDb okMailEnv exClock ⟨.absent, .absent⟩ exContactReq).resp =
      ⟨500, false, "Mail service not configured. Please contact administrator."⟩ ∧
    (route_send_contact noRecipientDb okMailEnv exClock ⟨.absent, .absent⟩ exContactReq).resp =
      ⟨500, false, "Recipient email not configured."⟩ ∧
    (∃ args, (route_send_contact exDb failMailEnv exClock
          ⟨.absent, .absent⟩ exContactReq).mailCalled = some args ∧
      ((send_email failMailEnv .absent exClock.now args).success = true →
        (route_send_contact exDb failMailEnv exClock ⟨.absent, .absent⟩ exContactReq).resp =
          ⟨200, true, "Your message has been sent successfully! We will reply soon."⟩) ∧
      ((send_email failMailEnv .absent exClock.now args).success = false →
        (route_send_contact exDb failMailEnv exClock ⟨.absent, .absent⟩ exContactReq).resp =
          ⟨(if pyInStr "Server" (send_email failMailEnv .absent exClock.now args).message
             then 500 else 429), false,
           pyOr2 (send_email failMailEnv .absent exClock.now args).message
             "Failed to send message. Please try again later."⟩)) ∧
    ((route_send_contact exDb failMailEnv exClock ⟨.absent, .absent⟩ exContactReq).resp.success
        = false ∧
     (route_send_contact exDb failMailEnv exClock ⟨.absent, .absent⟩ exContactReq).resp.status =
       (if pyInStr "Server" ("經過 3 次重試後發送失敗：" ++ failMailEnv.errText 3) then 500
        else 429)) ∧
    (route_cart_send_inquiry exCartEnv exDb exFs okMailEnv exClock "1.2.3.4" false []
        ⟨.absent, .absent⟩ exCartReq).resp =
      ⟨500, false, "System is busy, please try again later or contact support"⟩ :=
  ⟨c3_status_mapping.1 exDb okMailEnv exClock ⟨.absent, .absent⟩ exContactReq,
   c3_status_mapping.2.1 exDb okMailEnv exClock ⟨.absent, .absent⟩ blankNameContactReq
     (by decide),
   c3_status_mapping.2.2.1 noSmtpDb okMailEnv exClock ⟨.absent, .absent⟩ exContactReq rfl
     (by decide) (by decide) (by decide),
   c3_status_mapping.2.2.2.1 inactiveSmtpDb okMailEnv exClock ⟨.absent, .absent⟩ exContactReq
     inactiveSmtp rfl rfl (by decide) (by decide) (by decide),
   c3_status_mapping.2.2.2.2.1 noRecipientDb okMailEnv exClock ⟨.absent, .absent⟩ exContactReq
     noUserSmtp rfl rfl (by decide) (by decide) (by decide) (by decide),
   c3_status_mapping.2.2.2.2.2.1 exDb failMailEnv exClock ⟨.absent, .absent⟩ exContactReq
     exSmtp (by decide) (by decide) (by decide) rfl rfl (by decide),
   c3_status_mapping.2.2.2.2.2.2.1 exDb failMailEnv exClock ⟨.absent, .absent⟩ exContactReq
     exSmtp (by decide) (by decide) (by decide) rfl rfl (by decide) (by decide) (by decide)
     (by decide) (by decide) rfl rfl (fun _ => rfl),
   c3_status_mapping.2.2.2.2.2.2.2 exCartEnv exDb exFs okMailEnv exClock "1.2.3.4" false []
     ⟨.absent, .absent⟩ exCartReq (by decide) (by decide) (by decide) (by decide)⟩

end HotelSite
